import Mathlib

/-!
# Risk Classifier — shallow embedding

Embedding of the pure string-classification logic of `src/pages/Results.tsx`
(PCOS-Multimodal-AI-Detector): `hasWord`, `normalizeRisk`, `riskFromCombined`,
`summarizeSingle`, `riskExplanation`, and the overall-risk resolution performed
by `ResultsPage`.

Strings are modelled by Lean `String` (a packed `List Char`).  JavaScript's
`toLowerCase`/`trim` are modelled by structurally recursive functions
(`jsToLower`, `jsTrim`) that agree with the JS ones on the ASCII range the
classifier vocabulary lives in.  Optional / possibly-`undefined` arguments are
modelled by `Option String`; JS falsiness of a string (`undefined`, `null`, or
`""`) is modelled explicitly where the source tests it (`r || ''`,
`!combined`, `!prediction`).
-/

/-- The four risk categories (`type RiskLevel` in the source). -/
inductive RiskLevel
  | low
  | moderate
  | high
  | unknown
deriving DecidableEq, Repr

/-- The string the source uses for each `RiskLevel` value (the TS type is a
string union, so composing classifier functions goes through this). -/
def RiskLevel.toStr : RiskLevel → String
  | RiskLevel.low => "low"
  | RiskLevel.moderate => "moderate"
  | RiskLevel.high => "high"
  | RiskLevel.unknown => "unknown"

/-- Per-modality status (`normal` or `review` in the source union type). -/
inductive Status
  | normal
  | review
deriving DecidableEq, Repr

/-- Result of `summarizeSingle`: a status plus a display text. -/
structure Summary where
  status : Status
  text : String
deriving DecidableEq, Repr

/-- ASCII lowercase conversion, as `String.prototype.toLowerCase` acts on the
ASCII range (the only range the classifier vocabulary uses). -/
def jsToLower (s : String) : String :=
  String.mk (s.data.map Char.toLower)

/-- Whitespace in the sense of `String.prototype.trim` (ASCII part). -/
def isSpaceChar (c : Char) : Bool :=
  c = ' ' || c = '\t' || c = '\n' || c = '\r' || c = '\x0b' || c = '\x0c'

/-- Drop leading whitespace characters. -/
def dropLeadingSpace : List Char → List Char
  | [] => []
  | c :: cs => if isSpaceChar c then dropLeadingSpace cs else c :: cs

/-- `String.prototype.trim`: remove whitespace from both ends. -/
def jsTrim (s : String) : String :=
  String.mk (((dropLeadingSpace s.data).reverse |> dropLeadingSpace).reverse)

/-- A JS regex word character (`\w`, i.e. `[A-Za-z0-9_]`). -/
def isWordChar (c : Char) : Bool :=
  (('a' ≤ c && c ≤ 'z') || ('A' ≤ c && c ≤ 'Z') || ('0' ≤ c && c ≤ '9') || c = '_')

/-- Whether position `i` of the character list holds a word character
(out-of-range positions count as non-word, as at the ends of a JS string). -/
def wordCharAt (s : List Char) (i : Nat) : Bool :=
  match s.get? i with
  | some c => isWordChar c
  | none => false

/-- JS regex word boundary `\b` at position `i` (a position lies between
characters; `\b` holds when exactly one side is a word character). -/
def isBoundary (s : List Char) (i : Nat) : Bool :=
  Bool.xor (match i with | 0 => false | j + 1 => wordCharAt s j) (wordCharAt s i)

/-- Exact prefix test on character lists (`hay` starts with `needle`). -/
def listStartsWith : List Char → List Char → Bool
  | _, [] => true
  | [], _ :: _ => false
  | a :: as, b :: bs => (a == b) && listStartsWith as bs

/-- Case-insensitive prefix test (the `i` regex flag, ASCII case folding). -/
def ciStartsWith : List Char → List Char → Bool
  | _, [] => true
  | [], _ :: _ => false
  | a :: as, b :: bs => (Char.toLower a == Char.toLower b) && ciStartsWith as bs

/-- Exact substring containment (`String.prototype.includes`). -/
def strContains (hay needle : String) : Bool :=
  (List.range (hay.data.length + 1)).any
    (fun i => listStartsWith (hay.data.drop i) needle.data)

/-- The literal `word` occurs at position `i` of `hay`, case-insensitively,
delimited by word boundaries on both sides.  This is what the source regex
matches at position `i`: the `word` is metacharacter-escaped before being
spliced between two `\b`, so it matches only literally. -/
def wordOccursAt (hay word : List Char) (i : Nat) : Bool :=
  isBoundary hay i && ciStartsWith (hay.drop i) word && isBoundary hay (i + word.length)

/-- `hasWord` (Results.tsx line 16): case-insensitive whole-word check via the
regex built as two word boundaries around the escaped literal word; `re.test`
searches every position of the haystack. -/
def hasWord (haystack word : String) : Bool :=
  (List.range (haystack.data.length + 1)).any
    (fun i => wordOccursAt haystack.data word.data i)

/-- `normalizeRisk` (Results.tsx line 22): `(r || '').trim().toLowerCase()`,
then keep `low`/`moderate`/`high`, everything else is `unknown`. -/
def normalizeRisk (r : Option String) : RiskLevel :=
  if jsToLower (jsTrim (r.getD "")) = "low" then RiskLevel.low
  else if jsToLower (jsTrim (r.getD "")) = "moderate" then RiskLevel.moderate
  else if jsToLower (jsTrim (r.getD "")) = "high" then RiskLevel.high
  else RiskLevel.unknown

/-- The low-risk phrase list of `riskFromCombined` (Results.tsx line 32). -/
def lowPhrases : List String :=
  ["low risk", "no pcos", "non-pcos", "negative", "no symptoms"]

/-- The high-risk phrase list of `riskFromCombined` (Results.tsx line 33). -/
def highPhrases : List String :=
  ["high risk", "positive", "pcos detected", "likely pcos"]

/-- The moderate phrase list of `riskFromCombined` (Results.tsx line 34). -/
def midPhrases : List String :=
  ["moderate", "possible", "may suggest"]

/-- `riskFromCombined` (Results.tsx line 29): `!combined` (absent or empty)
yields `unknown`; otherwise lowercase the sentence and test the three phrase
lists for substring containment, in the order low, high, moderate. -/
def riskFromCombined : Option String → RiskLevel
  | none => RiskLevel.unknown
  | some c =>
    if c = "" then RiskLevel.unknown
    else if lowPhrases.any (fun w => strContains (jsToLower c) w) then RiskLevel.low
    else if highPhrases.any (fun w => strContains (jsToLower c) w) then RiskLevel.high
    else if midPhrases.any (fun w => strContains (jsToLower c) w) then RiskLevel.moderate
    else RiskLevel.unknown

/-- The normal-indicating vocabulary of `summarizeSingle` (Results.tsx line 61). -/
def normalWords : List String :=
  ["normal", "healthy", "no symptoms", "negative", "non-pcos", "no pcos"]

/-- The label-classification part of `summarizeSingle` (Results.tsx lines
51-63), reached when no usable explicit risk is given: `!prediction` (absent
or empty) yields "No data"; otherwise the label is lowercased and trimmed,
checked against the exact normal and abnormal tokens, then scanned for
whole-word normal vocabulary, defaulting to "Review Needed". -/
def summarizeLabel : Option String → Summary
  | none => Summary.mk Status.review "No data"
  | some pred =>
    if pred = "" then Summary.mk Status.review "No data"
    else if jsTrim (jsToLower pred) = "non_pcos" ∨ jsTrim (jsToLower pred) = "non-pcos" then
      Summary.mk Status.normal "Normal"
    else if jsTrim (jsToLower pred) = "unhealthy" ∨ jsTrim (jsToLower pred) = "pcos" ∨
        jsTrim (jsToLower pred) = "positive" ∨ jsTrim (jsToLower pred) = "pcos_positive" then
      Summary.mk Status.review "Review Needed"
    else if normalWords.any (fun w => hasWord (jsTrim (jsToLower pred)) w) then
      Summary.mk Status.normal "Normal"
    else Summary.mk Status.review "Review Needed"

/-- `summarizeSingle` (Results.tsx line 42): a present explicit risk other
than `unknown` decides the summary by itself (`low` is normal, anything else
needs review); otherwise the label is classified by `summarizeLabel`. -/
def summarizeSingle (prediction : Option String) (explicitRisk : Option RiskLevel) : Summary :=
  match explicitRisk with
  | some er =>
    if er ≠ RiskLevel.unknown then
      if er = RiskLevel.low then Summary.mk Status.normal "Normal"
      else Summary.mk Status.review "Review Needed"
    else summarizeLabel prediction
  | none => summarizeLabel prediction

/-- `riskExplanation` (Results.tsx line 66): fixed guidance paragraph per risk
level; the `default` arm of the switch covers `unknown`. -/
def riskExplanation : RiskLevel → String
  | RiskLevel.low =>
      "The analysis shows minimal indicators typically associated with PCOS. Regular monitoring and healthy lifestyle practices are recommended."
  | RiskLevel.moderate =>
      "The analysis shows some potential indicators that may warrant further investigation. Consider consulting a healthcare professional for comprehensive evaluation."
  | RiskLevel.high =>
      "The analysis indicates several markers that could be associated with PCOS symptoms. Professional medical consultation is strongly recommended."
  | RiskLevel.unknown =>
      "The analysis results are inconclusive. Additional testing or consultation may be needed for proper evaluation."

/-- The overall-risk resolution of `ResultsPage` (Results.tsx lines 112-115):
prefer the normalized explicit `overall_risk` when it is not `unknown`,
otherwise derive the risk from the `combined` sentence. -/
def overallRisk (overall_risk : Option String) (combined : Option String) : RiskLevel :=
  if normalizeRisk overall_risk ≠ RiskLevel.unknown then normalizeRisk overall_risk
  else riskFromCombined combined

/-- When the explicit risk is absent or `unknown`, `summarizeSingle` defers to
the label classification. -/
theorem summarizeSingle_no_explicit (l : Option String) (er : Option RiskLevel)
    (h : er = none ∨ er = some RiskLevel.unknown) :
    summarizeSingle l er = summarizeLabel l := by
  rcases h with h | h <;> subst h <;> rfl

/-- For a non-empty label, `summarizeLabel` is the three-stage token match. -/
theorem summarizeLabel_eq (l : String) (h : l ≠ "") :
    summarizeLabel (some l) =
      (if jsTrim (jsToLower l) = "non_pcos" ∨ jsTrim (jsToLower l) = "non-pcos" then
        Summary.mk Status.normal "Normal"
      else if jsTrim (jsToLower l) = "unhealthy" ∨ jsTrim (jsToLower l) = "pcos" ∨
          jsTrim (jsToLower l) = "positive" ∨ jsTrim (jsToLower l) = "pcos_positive" then
        Summary.mk Status.review "Review Needed"
      else if normalWords.any (fun w => hasWord (jsTrim (jsToLower l)) w) then
        Summary.mk Status.normal "Normal"
      else Summary.mk Status.review "Review Needed") := by
  simp only [summarizeLabel]
  rw [if_neg h]

/-- C5: `normalizeRisk` trims then lowercases; the result is `low`, `moderate`
or `high` exactly when the normalized string is that token, and `unknown`
exactly when it is none of the three.  Being a Lean function it is total, so
no input has an error condition. -/
theorem normalizeRisk_contract (r : Option String) :
    (normalizeRisk r = RiskLevel.low ↔ jsToLower (jsTrim (r.getD "")) = "low") ∧
    (normalizeRisk r = RiskLevel.moderate ↔ jsToLower (jsTrim (r.getD "")) = "moderate") ∧
    (normalizeRisk r = RiskLevel.high ↔ jsToLower (jsTrim (r.getD "")) = "high") ∧
    (normalizeRisk r = RiskLevel.unknown ↔
      (jsToLower (jsTrim (r.getD "")) ≠ "low" ∧ jsToLower (jsTrim (r.getD "")) ≠ "moderate" ∧
        jsToLower (jsTrim (r.getD "")) ≠ "high")) := by
  unfold normalizeRisk
  split_ifs with h1 h2 h3 <;> simp_all

/-- C5 witness: concrete instances of the contract. -/
theorem normalizeRisk_contract_witness :
    normalizeRisk (some " LOW ") = RiskLevel.low ∧
    normalizeRisk (some "Severe") = RiskLevel.unknown ∧
    normalizeRisk none = RiskLevel.unknown :=
  ⟨(normalizeRisk_contract (some " LOW ")).1.mpr (by decide),
   (normalizeRisk_contract (some "Severe")).2.2.2.mpr (by decide),
   (normalizeRisk_contract none).2.2.2.mpr (by decide)⟩

/-- C8: `normalizeRisk` is idempotent — renormalizing the string form of its
own output changes nothing. -/
theorem normalizeRisk_idem (x : String) :
    normalizeRisk (some ((normalizeRisk (some x)).toStr)) = normalizeRisk (some x) := by
  cases h : normalizeRisk (some x) <;> decide

/-- C8 witness: idempotence at a concrete input. -/
theorem normalizeRisk_idem_witness :
    normalizeRisk (some ((normalizeRisk (some " LoW ")).toStr)) =
      normalizeRisk (some " LoW ") :=
  normalizeRisk_idem " LoW "

/-- C9: `riskExplanation` answers on all four risk levels with a non-empty
text, the four texts are pairwise distinct, and `unknown` maps to the
inconclusive / additional-testing message. -/
theorem riskExplanation_lookup :
    (∀ r : RiskLevel, (riskExplanation r == "") = false) ∧
    ((riskExplanation RiskLevel.low == riskExplanation RiskLevel.moderate) = false) ∧
    ((riskExplanation RiskLevel.low == riskExplanation RiskLevel.high) = false) ∧
    ((riskExplanation RiskLevel.low == riskExplanation RiskLevel.unknown) = false) ∧
    ((riskExplanation RiskLevel.moderate == riskExplanation RiskLevel.high) = false) ∧
    ((riskExplanation RiskLevel.moderate == riskExplanation RiskLevel.unknown) = false) ∧
    ((riskExplanation RiskLevel.high == riskExplanation RiskLevel.unknown) = false) ∧
    riskExplanation RiskLevel.unknown =
      "The analysis results are inconclusive. Additional testing or consultation may be needed for proper evaluation." := by
  refine ⟨fun r => ?_, by decide, by decide, by decide, by decide, by decide, by decide, rfl⟩
  cases r <;> decide

/-- C9 witness: the lookup at a concrete risk level. -/
theorem riskExplanation_lookup_witness :
    (riskExplanation RiskLevel.low == "") = false :=
  riskExplanation_lookup.1 RiskLevel.low

/-- C10: with no usable explicit risk, the empty-string label behaves exactly
like an absent label (`No data`), while a whitespace-only label is not treated
as absent and falls through all matching to `Review Needed`. -/
theorem summarizeSingle_empty_vs_whitespace :
    summarizeSingle (some "") none = Summary.mk Status.review "No data" ∧
    summarizeSingle (some "") (some RiskLevel.unknown) = Summary.mk Status.review "No data" ∧
    summarizeSingle none none = Summary.mk Status.review "No data" ∧
    summarizeSingle none (some RiskLevel.unknown) = Summary.mk Status.review "No data" ∧
    summarizeSingle (some " ") none = Summary.mk Status.review "Review Needed" ∧
    summarizeSingle (some " ") (some RiskLevel.unknown) =
      Summary.mk Status.review "Review Needed" := by
  decide

/-- C6: `hasWord` is a case-insensitive whole-token match — it succeeds
exactly when the literal word occurs at some position of the haystack
delimited by word boundaries on both sides; in particular `healthy` is not
found inside `unhealthy` but is found in `Healthy patient`. -/
theorem hasWord_whole_word :
    hasWord "unhealthy" "healthy" = false ∧
    hasWord "Healthy patient" "healthy" = true ∧
    ∀ hay word : String, (hasWord hay word = true ↔
      ∃ i, i ≤ hay.data.length ∧ wordOccursAt hay.data word.data i = true) := by
  refine ⟨by decide, by decide, fun hay word => ?_⟩
  unfold hasWord
  rw [List.any_eq_true]
  constructor
  · rintro ⟨i, hi, hw⟩
    exact ⟨i, Nat.lt_succ_iff.mp (List.mem_range.mp hi), hw⟩
  · rintro ⟨i, hi, hw⟩
    exact ⟨i, List.mem_range.mpr (Nat.lt_succ_iff.mpr hi), hw⟩

/-- C6 witness: the occurrence characterization applied at a concrete
haystack, word and position. -/
theorem hasWord_whole_word_witness :
    hasWord "Normal scan today" "normal" = true :=
  (hasWord_whole_word.2.2 "Normal scan today" "normal").mpr ⟨0, by decide, by decide⟩

/-- C7: the classifier functions are total — `hasWord` yields a boolean on
every pair of strings (metacharacters in the word are matched literally, as
the escaping in the source guarantees), `riskFromCombined` yields `unknown`
on both falsy inputs, and `summarizeSingle` always yields one of the two
statuses. -/
theorem classifier_total :
    (∀ h w : String, hasWord h w = true ∨ hasWord h w = false) ∧
    riskFromCombined none = RiskLevel.unknown ∧
    riskFromCombined (some "") = RiskLevel.unknown ∧
    (∀ p : Option String, ∀ e : Option RiskLevel,
      (summarizeSingle p e).status = Status.normal ∨
        (summarizeSingle p e).status = Status.review) ∧
    hasWord "version x.y here" "x.y" = true ∧
    hasWord "version xzy here" "x.y" = false := by
  refine ⟨fun h w => ?_, by decide, by decide, fun p e => ?_, by decide, by decide⟩
  · cases hb : hasWord h w
    · exact Or.inr rfl
    · exact Or.inl rfl
  · cases hs : (summarizeSingle p e).status
    · exact Or.inl rfl
    · exact Or.inr rfl

/-- C7 witness: totality instances at concrete inputs. -/
theorem classifier_total_witness :
    (hasWord "a+b" "a" = true ∨ hasWord "a+b" "a" = false) ∧
    ((summarizeSingle (some "???") none).status = Status.normal ∨
      (summarizeSingle (some "???") none).status = Status.review) :=
  ⟨classifier_total.1 "a+b" "a", classifier_total.2.2.2.1 (some "???") none⟩

/-- C2: `riskFromCombined` checks the phrase lists in the order low, high,
moderate with first match winning on the lowercased sentence; no match or a
falsy sentence gives `unknown`; and the two documented examples classify as
`low` and `high`. -/
theorem riskFromCombined_priority :
    (∀ s : String, s ≠ "" →
      lowPhrases.any (fun w => strContains (jsToLower s) w) = true →
      riskFromCombined (some s) = RiskLevel.low) ∧
    (∀ s : String, s ≠ "" →
      lowPhrases.any (fun w => strContains (jsToLower s) w) = false →
      highPhrases.any (fun w => strContains (jsToLower s) w) = true →
      riskFromCombined (some s) = RiskLevel.high) ∧
    (∀ s : String, s ≠ "" →
      lowPhrases.any (fun w => strContains (jsToLower s) w) = false →
      highPhrases.any (fun w => strContains (jsToLower s) w) = false →
      midPhrases.any (fun w => strContains (jsToLower s) w) = true →
      riskFromCombined (some s) = RiskLevel.moderate) ∧
    (∀ s : String,
      lowPhrases.any (fun w => strContains (jsToLower s) w) = false →
      highPhrases.any (fun w => strContains (jsToLower s) w) = false →
      midPhrases.any (fun w => strContains (jsToLower s) w) = false →
      riskFromCombined (some s) = RiskLevel.unknown) ∧
    riskFromCombined none = RiskLevel.unknown ∧
    riskFromCombined (some "") = RiskLevel.unknown ∧
    riskFromCombined (some "Low risk, no PCOS detected") = RiskLevel.low ∧
    riskFromCombined (some "High risk: PCOS detected") = RiskLevel.high := by
  refine ⟨fun s hs h1 => ?_, fun s hs h1 h2 => ?_, fun s hs h1 h2 h3 => ?_,
    fun s h1 h2 h3 => ?_, rfl, by decide, by decide, by decide⟩
  · simp only [riskFromCombined]
    rw [if_neg hs, if_pos h1]
  · simp only [riskFromCombined]
    rw [if_neg hs, if_neg (by simp [h1]), if_pos h2]
  · simp only [riskFromCombined]
    rw [if_neg hs, if_neg (by simp [h1]), if_neg (by simp [h2]), if_pos h3]
  · by_cases hs : s = ""
    · subst hs; decide
    · simp only [riskFromCombined]
      rw [if_neg hs, if_neg (by simp [h1]), if_neg (by simp [h2]), if_neg (by simp [h3])]

/-- C2 witness: the priority clauses applied at concrete sentences. -/
theorem riskFromCombined_priority_witness :
    riskFromCombined (some "no symptoms observed") = RiskLevel.low ∧
    riskFromCombined (some "Possible condition") = RiskLevel.moderate ∧
    riskFromCombined (some "all clear") = RiskLevel.unknown :=
  ⟨riskFromCombined_priority.1 "no symptoms observed" (by decide) (by decide),
   riskFromCombined_priority.2.2.1 "Possible condition" (by decide) (by decide)
     (by decide) (by decide),
   riskFromCombined_priority.2.2.2.1 "all clear" (by decide) (by decide) (by decide)⟩

/-- C3: the overall risk of `ResultsPage` is a two-tier fallback — it is the
normalized `overall_risk` whenever that is not `unknown`, and is derived from
the `combined` sentence otherwise, in particular whenever `overall_risk` is
absent. -/
theorem overallRisk_two_tier :
    (∀ o c : Option String, normalizeRisk o ≠ RiskLevel.unknown →
      overallRisk o c = normalizeRisk o) ∧
    (∀ o c : Option String, normalizeRisk o = RiskLevel.unknown →
      overallRisk o c = riskFromCombined c) ∧
    (∀ c : Option String, overallRisk none c = riskFromCombined c) := by
  refine ⟨fun o c h => ?_, fun o c h => ?_, fun c => ?_⟩
  · unfold overallRisk
    rw [if_pos h]
  · unfold overallRisk
    rw [if_neg (fun hn => hn h)]
  · unfold overallRisk
    rw [if_neg (by decide)]

/-- C3 witness: both tiers at concrete payloads. -/
theorem overallRisk_two_tier_witness :
    overallRisk (some "HIGH") (some "no pcos") = RiskLevel.high ∧
    overallRisk (some "junk") (some "no pcos") = RiskLevel.low ∧
    overallRisk none (some "no pcos") = RiskLevel.low :=
  ⟨(overallRisk_two_tier.1 (some "HIGH") (some "no pcos") (by decide)).trans (by decide),
   (overallRisk_two_tier.2.1 (some "junk") (some "no pcos") (by decide)).trans (by decide),
   (overallRisk_two_tier.2.2 (some "no pcos")).trans (by decide)⟩

/-- C4: a present explicit risk other than `unknown` fully determines
`summarizeSingle` (the label is never examined, and `low` yields normal for
every label), and a non-`unknown` normalized `overall_risk` makes the
`combined` sentence irrelevant to the overall risk. -/
theorem explicitRisk_precedence :
    (∀ l1 l2 : Option String, ∀ er : RiskLevel, er ≠ RiskLevel.unknown →
      summarizeSingle l1 (some er) = summarizeSingle l2 (some er)) ∧
    (∀ l : Option String,
      summarizeSingle l (some RiskLevel.low) = Summary.mk Status.normal "Normal") ∧
    summarizeSingle (some "anything") (some RiskLevel.low) =
      Summary.mk Status.normal "Normal" ∧
    (∀ o c1 c2 : Option String, normalizeRisk o ≠ RiskLevel.unknown →
      overallRisk o c1 = overallRisk o c2) := by
  refine ⟨fun l1 l2 er h => ?_, fun l => rfl, by decide, fun o c1 c2 h => ?_⟩
  · simp only [summarizeSingle]
    rw [if_pos h, if_pos h]
  · unfold overallRisk
    rw [if_pos h, if_pos h]

/-- C4 witness: precedence of the explicit risk at concrete inputs. -/
theorem explicitRisk_precedence_witness :
    summarizeSingle (some "non_pcos") (some RiskLevel.high) =
      summarizeSingle (some "pcos") (some RiskLevel.high) ∧
    summarizeSingle (some "pcos") (some RiskLevel.low) =
      Summary.mk Status.normal "Normal" ∧
    overallRisk (some "low") (some "High risk") = overallRisk (some "low") none :=
  ⟨explicitRisk_precedence.1 (some "non_pcos") (some "pcos") RiskLevel.high (by decide),
   explicitRisk_precedence.2.1 (some "pcos"),
   explicitRisk_precedence.2.2.2 (some "low") (some "High risk") none (by decide)⟩

/-- C1 counterexample: the empty-string label with no explicit risk matches
none of the exact tokens and none of the normal vocabulary, so step (5) of the
claimed decision order demands `Review Needed`; the code instead takes the
falsy-label branch and answers `No data`. -/
theorem summarizeSingle_empty_label_counterexample :
    ((jsTrim (jsToLower "") == "non_pcos") = false) ∧
    ((jsTrim (jsToLower "") == "non-pcos") = false) ∧
    ((jsTrim (jsToLower "") == "unhealthy") = false) ∧
    ((jsTrim (jsToLower "") == "pcos") = false) ∧
    ((jsTrim (jsToLower "") == "positive") = false) ∧
    ((jsTrim (jsToLower "") == "pcos_positive") = false) ∧
    normalWords.any (fun w => hasWord (jsTrim (jsToLower "")) w) = false ∧
    summarizeSingle (some "") none = Summary.mk Status.review "No data" ∧
    ((Summary.mk Status.review "No data" ==
      Summary.mk Status.review "Review Needed") = false) := by
  decide

/-- C1 (amended): the five-step decision order of `summarizeSingle`, with
step (2) also covering a supplied empty-string label (JS falsiness) and step
(5) restricted to non-empty labels accordingly: (1) a present explicit risk
other than `unknown` decides alone; (2) an absent or empty label yields
`No data`; (3) the lowercased-trimmed label is compared with the exact normal
and abnormal tokens; (4) otherwise a whole-word normal-vocabulary hit yields
normal; (5) otherwise `Review Needed`. -/
theorem summarizeSingle_decision_order :
    (∀ l : Option String, ∀ er : RiskLevel, er ≠ RiskLevel.unknown →
      summarizeSingle l (some er) =
        (if er = RiskLevel.low then Summary.mk Status.normal "Normal"
         else Summary.mk Status.review "Review Needed")) ∧
    (∀ er : Option RiskLevel, (er = none ∨ er = some RiskLevel.unknown) →
      summarizeSingle none er = Summary.mk Status.review "No data" ∧
      summarizeSingle (some "") er = Summary.mk Status.review "No data") ∧
    (∀ l : String, ∀ er : Option RiskLevel, (er = none ∨ er = some RiskLevel.unknown) →
      (jsTrim (jsToLower l) = "non_pcos" ∨ jsTrim (jsToLower l) = "non-pcos") →
      summarizeSingle (some l) er = Summary.mk Status.normal "Normal") ∧
    (∀ l : String, ∀ er : Option RiskLevel, (er = none ∨ er = some RiskLevel.unknown) →
      (jsTrim (jsToLower l) = "unhealthy" ∨ jsTrim (jsToLower l) = "pcos" ∨
        jsTrim (jsToLower l) = "positive" ∨ jsTrim (jsToLower l) = "pcos_positive") →
      summarizeSingle (some l) er = Summary.mk Status.review "Review Needed") ∧
    (∀ l : String, ∀ er : Option RiskLevel, (er = none ∨ er = some RiskLevel.unknown) →
      jsTrim (jsToLower l) ≠ "non_pcos" → jsTrim (jsToLower l) ≠ "non-pcos" →
      jsTrim (jsToLower l) ≠ "unhealthy" → jsTrim (jsToLower l) ≠ "pcos" →
      jsTrim (jsToLower l) ≠ "positive" → jsTrim (jsToLower l) ≠ "pcos_positive" →
      normalWords.any (fun w => hasWord (jsTrim (jsToLower l)) w) = true →
      summarizeSingle (some l) er = Summary.mk Status.normal "Normal") ∧
    (∀ l : String, ∀ er : Option RiskLevel, (er = none ∨ er = some RiskLevel.unknown) →
      l ≠ "" →
      jsTrim (jsToLower l) ≠ "non_pcos" → jsTrim (jsToLower l) ≠ "non-pcos" →
      jsTrim (jsToLower l) ≠ "unhealthy" → jsTrim (jsToLower l) ≠ "pcos" →
      jsTrim (jsToLower l) ≠ "positive" → jsTrim (jsToLower l) ≠ "pcos_positive" →
      normalWords.any (fun w => hasWord (jsTrim (jsToLower l)) w) = false →
      summarizeSingle (some l) er = Summary.mk Status.review "Review Needed") := by
  refine ⟨fun l er h => ?_, fun er her => ?_, fun l er her htok => ?_,
    fun l er her htok => ?_, fun l er her h1 h2 h3 h4 h5 h6 hany => ?_,
    fun l er her hl h1 h2 h3 h4 h5 h6 hany => ?_⟩
  · simp only [summarizeSingle]
    rw [if_pos h]
  · rw [summarizeSingle_no_explicit _ _ her, summarizeSingle_no_explicit _ _ her]
    exact ⟨rfl, rfl⟩
  · have hl : l ≠ "" := by
      rintro rfl
      rcases htok with h | h <;> revert h <;> decide
    rw [summarizeSingle_no_explicit _ _ her, summarizeLabel_eq l hl, if_pos htok]
  · have hl : l ≠ "" := by
      rintro rfl
      rcases htok with h | h | h | h <;> revert h <;> decide
    have hne1 : ¬(jsTrim (jsToLower l) = "non_pcos" ∨ jsTrim (jsToLower l) = "non-pcos") := by
      rcases htok with h | h | h | h <;> rw [h] <;> decide
    rw [summarizeSingle_no_explicit _ _ her, summarizeLabel_eq l hl, if_neg hne1,
      if_pos htok]
  · have hl : l ≠ "" := by
      rintro rfl
      revert hany
      decide
    have hne1 : ¬(jsTrim (jsToLower l) = "non_pcos" ∨ jsTrim (jsToLower l) = "non-pcos") :=
      fun hc => hc.elim h1 h2
    have hne2 : ¬(jsTrim (jsToLower l) = "unhealthy" ∨ jsTrim (jsToLower l) = "pcos" ∨
        jsTrim (jsToLower l) = "positive" ∨ jsTrim (jsToLower l) = "pcos_positive") := by
      rintro (h | h | h | h)
      exacts [h3 h, h4 h, h5 h, h6 h]
    rw [summarizeSingle_no_explicit _ _ her, summarizeLabel_eq l hl, if_neg hne1,
      if_neg hne2, if_pos hany]
  · have hne1 : ¬(jsTrim (jsToLower l) = "non_pcos" ∨ jsTrim (jsToLower l) = "non-pcos") :=
      fun hc => hc.elim h1 h2
    have hne2 : ¬(jsTrim (jsToLower l) = "unhealthy" ∨ jsTrim (jsToLower l) = "pcos" ∨
        jsTrim (jsToLower l) = "positive" ∨ jsTrim (jsToLower l) = "pcos_positive") := by
      rintro (h | h | h | h)
      exacts [h3 h, h4 h, h5 h, h6 h]
    rw [summarizeSingle_no_explicit _ _ her, summarizeLabel_eq l hl, if_neg hne1,
      if_neg hne2, if_neg (by simp [hany])]

/-- C1 witness: one concrete instance per step of the amended decision
order. -/
theorem summarizeSingle_decision_order_witness :
    summarizeSingle (some "x") (some RiskLevel.high) =
      Summary.mk Status.review "Review Needed" ∧
    summarizeSingle (some "") none = Summary.mk Status.review "No data" ∧
    summarizeSingle (some "  Non_PCOS ") none = Summary.mk Status.normal "Normal" ∧
    summarizeSingle (some "PCOS") (some RiskLevel.unknown) =
      Summary.mk Status.review "Review Needed" ∧
    summarizeSingle (some "no symptoms found") none = Summary.mk Status.normal "Normal" ∧
    summarizeSingle (some "gibberish") none = Summary.mk Status.review "Review Needed" :=
  ⟨(summarizeSingle_decision_order.1 (some "x") RiskLevel.high (by decide)).trans
      (by decide),
   (summarizeSingle_decision_order.2.1 none (Or.inl rfl)).2,
   summarizeSingle_decision_order.2.2.1 "  Non_PCOS " none (Or.inl rfl)
     (Or.inl (by decide)),
   summarizeSingle_decision_order.2.2.2.1 "PCOS" (some RiskLevel.unknown) (Or.inr rfl)
     (Or.inr (Or.inl (by decide))),
   summarizeSingle_decision_order.2.2.2.2.1 "no symptoms found" none (Or.inl rfl)
     (by decide) (by decide) (by decide) (by decide) (by decide) (by decide) (by decide),
   summarizeSingle_decision_order.2.2.2.2.2 "gibberish" none (Or.inl rfl) (by decide)
     (by decide) (by decide) (by decide) (by decide) (by decide) (by decide) (by decide)⟩
